import Mathlib

/-!
Shallow embedding of the booking/conflict-resolution engine of the
comp3005 fitness ORM repository (src/app/member_service.py,
src/app/trainer_service.py, src/app/admin_service.py and the entity
declarations in src/models/scheduling.py), together with theorems
settling the specification claims about it.

Modelling conventions:
* A Python `datetime` is a `Nat` counting minutes since a reference
  Monday 00:00, so `weekday t = (t / 1440) % 7` (0 = Monday, matching
  `datetime.weekday()`), and `.time()` is `t % 1440` (minutes of day).
  A Python `time` (used by availability windows) is a `Nat` of minutes
  of day.  The services only ever compare these values and test
  hour-alignment (`minute == 0 and second == 0`, i.e. `t % 60 = 0`
  at minute granularity), so this abstraction is exact.
* Python floats that hold money are modelled as `ℚ`.
* The database session is a `State` record of entity lists; `session.get`
  is a `find?` by primary key, a filtered `select ... .first()` is a
  `find?`/`any` over the list in insertion order, and committing is
  implicit (the functions return the updated `State`).
* A service function that can `raise ValueError(msg)` returns `Res α`:
  either `.ok value st` or `.error msg st`, in both cases carrying the
  state as it stood at that point of the function body, so that the
  absence of partial writes on failure is a provable property rather
  than a modelling artefact.
* `strftime` formatting inside billing descriptions is abstracted to
  `toString` of the raw timestamp; no claim depends on the rendering.
-/

namespace Gym

/-- Minutes in one day. -/
def minutesPerDay : Nat := 1440

/-- `datetime.weekday()`: 0 = Monday … 6 = Sunday. -/
def weekday (t : Nat) : Nat := (t / minutesPerDay) % 7

/-- `datetime.time()` at minute granularity: minutes since midnight. -/
def timeOfDay (t : Nat) : Nat := t % minutesPerDay

/-- `models/scheduling.py::Trainer` (the fields the engine reads). -/
structure Trainer where
  trainer_id : Nat
  first_name : String
  last_name : String
deriving DecidableEq, Repr

/-- `models/scheduling.py::PrivateSession`.  The `price` column is added
by `init_db.py` as a nullable NUMERIC, hence `Option ℚ`. -/
structure PrivateSession where
  session_id : Nat
  member_id : Nat
  trainer_id : Nat
  room_id : Nat
  start_time : Nat
  end_time : Nat
  price : Option ℚ
deriving DecidableEq, Repr, Inhabited

/-- `models/scheduling.py::ClassSchedule`.  `capacity` is a Python `int`
(no sign validation anywhere), hence `Int`; `price` is nullable at the
database level (`init_db.py` adds it with only a default). -/
structure ClassSchedule where
  class_id : Nat
  name : String
  trainer_id : Nat
  room_id : Nat
  start_time : Nat
  end_time : Nat
  capacity : Int
  price : Option ℚ
deriving DecidableEq, Repr, Inhabited

/-- `models/scheduling.py::ClassRegistration`. -/
structure ClassRegistration where
  registration_id : Nat
  member_id : Nat
  class_id : Nat
  attended : Bool
deriving DecidableEq, Repr, Inhabited

/-- `models/scheduling.py::TrainerAvailability`; `start_time`/`end_time`
are times of day in minutes. -/
structure TrainerAvailability where
  availability_id : Nat
  trainer_id : Nat
  day_of_week : Nat
  start_time : Nat
  end_time : Nat
deriving DecidableEq, Repr, Inhabited

/-- `models/payment.py::BillingItem` (the fields the engine writes). -/
structure BillingItem where
  bill_id : Nat
  member_id : Nat
  private_session_id : Option Nat
  class_id : Option Nat
  trainer_id : Option Nat
  amount : ℚ
  description : String
  status : String
deriving DecidableEq, Repr

/-- The relational store: one list per table, in insertion order, plus
autoincrement counters.  Members and rooms only ever matter through
existence by id, so they are kept as id lists. -/
structure State where
  members : List Nat
  trainers : List Trainer
  rooms : List Nat
  sessions : List PrivateSession
  classes : List ClassSchedule
  registrations : List ClassRegistration
  availabilities : List TrainerAvailability
  billing : List BillingItem
  next_session_id : Nat
  next_class_id : Nat
  next_registration_id : Nat
  next_availability_id : Nat
  next_bill_id : Nat
deriving DecidableEq, Repr

/-- Result of a service call: the Python functions either return a value
or raise `ValueError(msg)`; both constructors carry the store as it
stands when the function exits. -/
inductive Res (α : Type) where
  | ok (val : α) (st : State)
  | error (msg : String) (st : State)
deriving DecidableEq, Repr

/-- Did the call succeed? -/
def Res.isOk {α : Type} : Res α → Bool
  | .ok _ _ => true
  | .error _ _ => false

/-- The store after the call, successful or not. -/
def Res.state {α : Type} : Res α → State
  | .ok _ st => st
  | .error _ st => st

/-- The raised message, if any. -/
def Res.errMsg {α : Type} : Res α → Option String
  | .ok _ _ => none
  | .error msg _ => some msg

/-- The returned value of a successful call (defaulted on failure). -/
def Res.valD {α : Type} [Inhabited α] : Res α → α
  | .ok v _ => v
  | .error _ _ => default

/-- `session.get(Trainer, id)`. -/
def State.getTrainer (st : State) (i : Nat) : Option Trainer :=
  st.trainers.find? (fun t => t.trainer_id = i)

/-- `session.get(PrivateSession, id)`. -/
def State.getSession (st : State) (i : Nat) : Option PrivateSession :=
  st.sessions.find? (fun s => s.session_id = i)

/-- `session.get(ClassSchedule, id)`. -/
def State.getClass (st : State) (i : Nat) : Option ClassSchedule :=
  st.classes.find? (fun c => c.class_id = i)

/-- `session.get(TrainerAvailability, id)`. -/
def State.getAvailability (st : State) (i : Nat) : Option TrainerAvailability :=
  st.availabilities.find? (fun a => a.availability_id = i)

/-- In-place ORM mutation of one row fetched by a `first()` query:
rewrite the first list element satisfying `p`. -/
def updateFirst {α : Type} (p : α → Bool) (f : α → α) : List α → List α
  | [] => []
  | x :: xs => if p x then f x :: xs else x :: updateFirst p f xs

/-- Python `a or b` on an integer id: `None` and `0` are falsy. -/
def pyOrId (o : Option Nat) (d : Nat) : Nat :=
  match o with
  | none => d
  | some v => if v = 0 then d else v

/-- Python `float(x or 0)` on a nullable numeric column. -/
def pyFloatOr0 (o : Option ℚ) : ℚ :=
  match o with
  | none => 0
  | some v => v

/-- `member_service.py::_time_overlaps` (lines 158-159):
`not (end <= other_start or start >= other_end)`. -/
def time_overlaps (start_t end_t other_start other_end : Nat) : Bool :=
  !(decide (end_t ≤ other_start) || decide (start_t ≥ other_end))

/-- The inline `overlap_ps`/`overlap_cls`/`_overlap_filter` predicate used
by every conflict query: `col_start < end AND col_end > start`. -/
def overlapFilter (col_start col_end start_t end_t : Nat) : Bool :=
  decide (col_start < end_t) && decide (col_end > start_t)

/-- `room_session_stmt`: some stored private session in `room_id`
overlaps `[start_time, end_time)`. -/
def room_session_conflict (st : State) (room_id start_time end_time : Nat) : Bool :=
  st.sessions.any (fun ps => ps.room_id == room_id &&
    overlapFilter ps.start_time ps.end_time start_time end_time)

/-- `room_class_stmt`: some stored class in `room_id` overlaps the window. -/
def room_class_conflict (st : State) (room_id start_time end_time : Nat) : Bool :=
  st.classes.any (fun c => c.room_id == room_id &&
    overlapFilter c.start_time c.end_time start_time end_time)

/-- `trainer_session_stmt`: some private session of `trainer_id` overlaps. -/
def trainer_session_conflict (st : State) (trainer_id start_time end_time : Nat) : Bool :=
  st.sessions.any (fun ps => ps.trainer_id == trainer_id &&
    overlapFilter ps.start_time ps.end_time start_time end_time)

/-- `trainer_class_stmt`: some class of `trainer_id` overlaps. -/
def trainer_class_conflict (st : State) (trainer_id start_time end_time : Nat) : Bool :=
  st.classes.any (fun c => c.trainer_id == trainer_id &&
    overlapFilter c.start_time c.end_time start_time end_time)

/-- `member_session_stmt`: some private session of `member_id` overlaps. -/
def member_session_conflict (st : State) (member_id start_time end_time : Nat) : Bool :=
  st.sessions.any (fun ps => ps.member_id == member_id &&
    overlapFilter ps.start_time ps.end_time start_time end_time)

/-- `member_class_stmt`: some class the member is registered in overlaps
(the `ClassSchedule ⋈ ClassRegistration` join). -/
def member_class_conflict (st : State) (member_id start_time end_time : Nat) : Bool :=
  st.classes.any (fun c =>
    st.registrations.any (fun r => r.class_id == c.class_id &&
      r.member_id == member_id) &&
    overlapFilter c.start_time c.end_time start_time end_time)

/-- Reschedule-path room scan: as `room_session_conflict` but ignoring the
session `excl_id` itself (`overlaps_with_other_session`). -/
def room_session_conflict_excl (st : State) (room_id start_time end_time excl_id : Nat) : Bool :=
  st.sessions.any (fun s => s.room_id == room_id &&
    overlapFilter s.start_time s.end_time start_time end_time &&
    s.session_id != excl_id)

/-- Reschedule-path trainer scan with self-exclusion. -/
def trainer_session_conflict_excl (st : State) (trainer_id start_time end_time excl_id : Nat) : Bool :=
  st.sessions.any (fun s => s.trainer_id == trainer_id &&
    overlapFilter s.start_time s.end_time start_time end_time &&
    s.session_id != excl_id)

/-- Reschedule-path member scan with the `session_id !=` filter built into
the query. -/
def member_session_conflict_excl (st : State) (member_id start_time end_time excl_id : Nat) : Bool :=
  st.sessions.any (fun s => s.member_id == member_id &&
    s.session_id != excl_id &&
    overlapFilter s.start_time s.end_time start_time end_time)

/-- Class-path `room_class_conflict_stmt`: other classes in the room,
excluding the class being updated, if any. -/
def class_room_class_conflict (st : State) (room_id start_time end_time : Nat)
    (existing_class : Option ClassSchedule) : Bool :=
  st.classes.any (fun c => c.room_id == room_id &&
    overlapFilter c.start_time c.end_time start_time end_time &&
    (match existing_class with
     | some ec => c.class_id != ec.class_id
     | none => true))

/-- Class-path `trainer_class_conflict_stmt` with the same exclusion. -/
def class_trainer_class_conflict (st : State) (trainer_id start_time end_time : Nat)
    (existing_class : Option ClassSchedule) : Bool :=
  st.classes.any (fun c => c.trainer_id == trainer_id &&
    overlapFilter c.start_time c.end_time start_time end_time &&
    (match existing_class with
     | some ec => c.class_id != ec.class_id
     | none => true))

/-- Modelled from the spec: `app/pricing.py` is imported by
`member_service.py` for the default private-session price but is not
among the sources; the schema default for `private_session.price`
(`init_db.py`, line 42) is 75, which we adopt.  No claim depends on the
value. -/
def DEFAULT_PRIVATE_SESSION_PRICE : ℚ := 75

/-- `member_service.py::_format_private_payment_description`, with the
`strftime` rendering of the start time abstracted to `toString`. -/
def format_private_payment_description (trainer : Option Trainer) (start_time : Nat) : String :=
  let trainer_name :=
    match trainer with
    | some t => t.first_name ++ " " ++ t.last_name
    | none => "trainer"
  "Private session with " ++ trainer_name ++ " on " ++ toString start_time

/-- `member_service.py::_ensure_trainer_availability`: returns the raised
message, or `none` when the window fits some availability slot. -/
def ensure_trainer_availability (st : State) (trainer_id : Nat)
    (start_time end_time : Nat) : Option String :=
  let day_of_week := weekday start_time
  let start_t := timeOfDay start_time
  let end_t := timeOfDay end_time
  let availabilities := st.availabilities.filter
    (fun av => av.trainer_id == trainer_id && av.day_of_week == day_of_week)
  if availabilities.isEmpty then
    some "Trainer has no availability on this day."
  else if availabilities.any
      (fun av => decide (start_t ≥ av.start_time) && decide (end_t ≤ av.end_time)) then
    none
  else
    some "Requested time is outside the trainer's available hours."

/-- `member_service.py::_ensure_private_billing`: upsert of the billing
row keyed by the private-session id (`updated_at` wall-clock touch
omitted; no claim reads it). -/
def ensure_private_billing (st : State) (ps : PrivateSession)
    (trainer : Option Trainer) : State :=
  let desc := format_private_payment_description trainer ps.start_time
  let keyed : BillingItem → Bool := fun b => b.private_session_id == some ps.session_id
  match st.billing.find? keyed with
  | some _ =>
      { st with billing :=
          (updateFirst keyed
            (fun b =>
              let b := { b with description := desc, amount := pyFloatOr0 ps.price }
              match trainer with
              | some t => { b with trainer_id := some t.trainer_id }
              | none => b)
            st.billing) }
  | none =>
      { st with
          billing := st.billing ++
            [{ bill_id := st.next_bill_id,
               member_id := ps.member_id,
               private_session_id := some ps.session_id,
               class_id := none,
               trainer_id := trainer.map (fun t => t.trainer_id),
               amount := pyFloatOr0 ps.price,
               description := desc,
               status := "pending" }]
          next_bill_id := st.next_bill_id + 1 }

/-- `member_service.py::book_private_session` (lines 237-343). -/
def book_private_session (st : State) (member_id trainer_id room_id : Nat)
    (start_time end_time : Nat) (price : Option ℚ := none) : Res PrivateSession :=
  if start_time ≥ end_time then
    .error "start_time must be before end_time" st
  else if !(st.members.contains member_id) then
    .error "Member not found" st
  else
    match st.getTrainer trainer_id with
    | none => .error "Trainer not found" st
    | some trainer =>
      if !(st.rooms.contains room_id) then
        .error "Room not found" st
      else
        match ensure_trainer_availability st trainer_id start_time end_time with
        | some msg => .error msg st
        | none =>
          if room_session_conflict st room_id start_time end_time then
            .error "Room is already booked for another private session in that time" st
          else if room_class_conflict st room_id start_time end_time then
            .error "Room is already booked for a class in that time" st
          else if trainer_session_conflict st trainer_id start_time end_time then
            .error "Trainer is already booked for another private session in that time" st
          else if trainer_class_conflict st trainer_id start_time end_time then
            .error "Trainer is already teaching a class in that time" st
          else if member_session_conflict st member_id start_time end_time then
            .error "Member already has a private session in that time" st
          else if member_class_conflict st member_id start_time end_time then
            .error "Member is registered for a class in that time" st
          else
            let final_price :=
              match price with
              | none => DEFAULT_PRIVATE_SESSION_PRICE
              | some p => p
            let ps : PrivateSession :=
              { session_id := st.next_session_id,
                member_id := member_id,
                trainer_id := trainer_id,
                room_id := room_id,
                start_time := start_time,
                end_time := end_time,
                price := some final_price }
            let st1 := { st with sessions := st.sessions ++ [ps],
                                 next_session_id := st.next_session_id + 1 }
            .ok ps (ensure_private_billing st1 ps (some trainer))

/-- `member_service.py::reschedule_private_session` (lines 346-439). -/
def reschedule_private_session (st : State) (session_id : Nat)
    (new_room_id : Option Nat := none) (new_start : Option Nat := none)
    (new_end : Option Nat := none) : Res PrivateSession :=
  match st.getSession session_id with
  | none => .error "Private session not found" st
  | some priv =>
    let room_id := pyOrId new_room_id priv.room_id
    let start_time := new_start.getD priv.start_time
    let end_time := new_end.getD priv.end_time
    if start_time ≥ end_time then
      .error "start_time must be before end_time" st
    else
      match ensure_trainer_availability st priv.trainer_id start_time end_time with
      | some msg => .error msg st
      | none =>
        if room_session_conflict_excl st room_id start_time end_time priv.session_id then
          .error "Room is already booked for another private session in that time" st
        else if room_class_conflict st room_id start_time end_time then
          .error "Room is already booked for a class in that time" st
        else if trainer_session_conflict_excl st priv.trainer_id start_time end_time priv.session_id then
          .error "Trainer is already booked for another session in that time" st
        else if trainer_class_conflict st priv.trainer_id start_time end_time then
          .error "Trainer is already teaching a class in that time" st
        else if member_session_conflict_excl st priv.member_id start_time end_time priv.session_id then
          .error "Member already has a private session in that time" st
        else if member_class_conflict st priv.member_id start_time end_time then
          .error "Member is registered for a class in that time" st
        else
          let priv2 := { priv with room_id := room_id, start_time := start_time,
                                   end_time := end_time }
          let st1 := { st with sessions :=
              (updateFirst (fun s => s.session_id == priv.session_id)
                (fun _ => priv2) st.sessions) }
          .ok priv2 (ensure_private_billing st1 priv2 (st.getTrainer priv.trainer_id))

/-- `cls.trainer.first_name` through the ORM relationship; a dangling
trainer foreign key is impossible at the database level. -/
def trainerFirstName (st : State) (trainer_id : Nat) : String :=
  match st.getTrainer trainer_id with
  | some t => t.first_name
  | none => ""

/-- `member_service.py::_ensure_class_billing`: reuse the first
non-cancelled bill for this member and class, else create one. -/
def ensure_class_billing (st : State) (member_id : Nat) (cls : ClassSchedule) : State :=
  let keyed : BillingItem → Bool := fun b =>
    b.member_id == member_id && b.class_id == some cls.class_id && b.status != "cancelled"
  match st.billing.find? keyed with
  | some _ =>
      { st with billing :=
          (updateFirst keyed
            (fun b =>
              if b.trainer_id ≠ some cls.trainer_id then
                { b with trainer_id := some cls.trainer_id }
              else b)
            st.billing) }
  | none =>
      { st with
          billing := st.billing ++
            [{ bill_id := st.next_bill_id,
               member_id := member_id,
               private_session_id := none,
               class_id := some cls.class_id,
               trainer_id := some cls.trainer_id,
               amount := pyFloatOr0 cls.price,
               description := "Class " ++ cls.name ++ " with " ++
                 trainerFirstName st cls.trainer_id,
               status := "pending" }]
          next_bill_id := st.next_bill_id + 1 }

/-- Number of registrations stored for a class id
(`select count(...) where class_id == ...`). -/
def regCount (st : State) (class_id : Nat) : Nat :=
  (st.registrations.filter (fun r => r.class_id == class_id)).length

/-- `member_service.py::register_for_class` (lines 486-533). -/
def register_for_class (st : State) (member_id class_id : Nat) : Res ClassRegistration :=
  if !(st.members.contains member_id) then
    .error "Member not found" st
  else
    match st.getClass class_id with
    | none => .error "Class not found" st
    | some cls =>
      match ensure_trainer_availability st cls.trainer_id cls.start_time cls.end_time with
      | some msg => .error msg st
      | none =>
        if st.registrations.any (fun r => r.member_id == member_id &&
            r.class_id == class_id) then
          .error "Member already registered for this class" st
        else if (regCount st class_id : Int) ≥ cls.capacity then
          .error "Class is full" st
        else
          let reg : ClassRegistration :=
            { registration_id := st.next_registration_id,
              member_id := member_id,
              class_id := class_id,
              attended := false }
          let st1 := { st with registrations := st.registrations ++ [reg],
                               next_registration_id := st.next_registration_id + 1 }
          .ok reg (ensure_class_billing st1 member_id cls)

/-- `member_service.py::_class_within_trainer_availability`
(lines 467-483): vacuously true when the trainer has no window on the
class's weekday. -/
def class_within_trainer_availability (st : State) (cls : ClassSchedule) : Bool :=
  let day := weekday cls.start_time
  let start_t := timeOfDay cls.start_time
  let end_t := timeOfDay cls.end_time
  let availabilities := st.availabilities.filter
    (fun av => av.trainer_id == cls.trainer_id && av.day_of_week == day)
  if availabilities.isEmpty then true
  else availabilities.any
    (fun av => decide (av.start_time ≤ start_t) && decide (av.end_time ≥ end_t))

/-- Insert into a list kept ascending by `start_time` (`ORDER BY`). -/
def insertByStart (c : ClassSchedule) : List ClassSchedule → List ClassSchedule
  | [] => [c]
  | x :: xs =>
      if c.start_time < x.start_time then c :: x :: xs
      else x :: insertByStart c xs

/-- Sort classes ascending by `start_time`. -/
def sortByStart : List ClassSchedule → List ClassSchedule
  | [] => []
  | x :: xs => insertByStart x (sortByStart xs)

/-- `member_service.py::list_upcoming_classes` (lines 443-464). -/
def list_upcoming_classes (st : State) (now : Nat) : List ClassSchedule :=
  (sortByStart (st.classes.filter (fun c => decide (c.start_time ≥ now)))).filter
    (fun c => class_within_trainer_availability st c)

/-- `trainer_service.py::_trainer_supports_window` (lines 131-147). -/
def trainer_supports_window (st : State) (trainer_id : Nat)
    (start_time end_time : Nat) : Bool :=
  let day := weekday start_time
  let start_t := timeOfDay start_time
  let end_t := timeOfDay end_time
  (st.availabilities.filter
    (fun av => av.trainer_id == trainer_id && av.day_of_week == day)).any
    (fun av => decide (av.start_time ≤ start_t) && decide (av.end_time ≥ end_t))

/-- The `or_(and_(...), and_(...), and_(...))` overlap condition of
`set_trainer_availability`/`update_trainer_availability`
(`trainer_service.py`, lines 52-65 and 106-119), for one stored window
against the proposed `[start_t, end_t)`. -/
def availability_window_overlaps (av : TrainerAvailability)
    (start_t end_t : Nat) : Bool :=
  (decide (av.start_time ≤ start_t) && decide (av.end_time > start_t)) ||
  (decide (av.start_time < end_t) && decide (av.end_time ≥ end_t)) ||
  (decide (av.start_time ≥ start_t) && decide (av.end_time ≤ end_t))

/-- `trainer_service.py::set_trainer_availability` (lines 27-79). -/
def set_trainer_availability (st : State) (trainer_id day_of_week : Nat)
    (start_t end_t : Nat) : Res TrainerAvailability :=
  if start_t ≥ end_t then
    .error "Availability start time must be before end time" st
  else if start_t % 60 ≠ 0 || end_t % 60 ≠ 0 then
    .error "Availability times must start/end on the hour (e.g., 09:00)" st
  else
    match st.getTrainer trainer_id with
    | none => .error "Trainer not found" st
    | some _ =>
      if st.availabilities.any (fun av => av.trainer_id == trainer_id &&
          av.day_of_week == day_of_week &&
          availability_window_overlaps av start_t end_t) then
        .error "Availability window overlaps with an existing one" st
      else
        let avail : TrainerAvailability :=
          { availability_id := st.next_availability_id,
            trainer_id := trainer_id,
            day_of_week := day_of_week,
            start_time := start_t,
            end_time := end_t }
        .ok avail { st with availabilities := st.availabilities ++ [avail],
                            next_availability_id := st.next_availability_id + 1 }

/-- `trainer_service.py::update_trainer_availability` (lines 82-128). -/
def update_trainer_availability (st : State) (availability_id : Nat)
    (start_t end_t : Nat) : Res TrainerAvailability :=
  if start_t ≥ end_t then
    .error "Availability start time must be before end time" st
  else if start_t % 60 ≠ 0 || end_t % 60 ≠ 0 then
    .error "Availability times must start/end on the hour (e.g., 09:00)" st
  else
    match st.getAvailability availability_id with
    | none => .error "Availability window not found" st
    | some availability =>
      if st.availabilities.any (fun av => av.trainer_id == availability.trainer_id &&
          av.day_of_week == availability.day_of_week &&
          av.availability_id != availability.availability_id &&
          availability_window_overlaps av start_t end_t) then
        .error "Updated window overlaps with an existing one" st
      else
        let avail2 := { availability with start_time := start_t, end_time := end_t }
        .ok avail2 { st with availabilities :=
            (updateFirst (fun av => av.availability_id == availability.availability_id)
              (fun _ => avail2) st.availabilities) }

/-- Tail of `trainer_service.py::create_or_update_class` after the
existence/ownership lookups: availability check, the four conflict
scans in source order (room-classes, room-sessions, trainer-classes,
trainer-sessions), then create or in-place update.  `start_time` and
`end_time` are already normalized by the caller. -/
def create_or_update_class_checked (st : State) (trainer_id room_id : Nat)
    (name : String) (capacity : Int) (start_time end_time : Nat) (price : ℚ)
    (existing_class : Option ClassSchedule) : Res ClassSchedule :=
  if !(trainer_supports_window st trainer_id start_time end_time) then
    .error "Trainer does not have availability for this time window" st
  else if class_room_class_conflict st room_id start_time end_time existing_class then
    .error "Room is not available for this time slot" st
  else if room_session_conflict st room_id start_time end_time then
    .error "Room is not available for this time slot" st
  else if class_trainer_class_conflict st trainer_id start_time end_time existing_class then
    .error "Trainer is not available for this time slot" st
  else if trainer_session_conflict st trainer_id start_time end_time then
    .error "Trainer is not available for this time slot" st
  else
    match existing_class with
    | none =>
        let cls : ClassSchedule :=
          { class_id := st.next_class_id,
            name := name,
            trainer_id := trainer_id,
            room_id := room_id,
            start_time := start_time,
            end_time := end_time,
            capacity := capacity,
            price := some price }
        .ok cls { st with classes := st.classes ++ [cls],
                          next_class_id := st.next_class_id + 1 }
    | some ec =>
        let cls2 := { ec with name := name, room_id := room_id,
                              start_time := start_time, end_time := end_time,
                              capacity := capacity, price := some price }
        .ok cls2 { st with classes :=
            (updateFirst (fun c => c.class_id == ec.class_id)
              (fun _ => cls2) st.classes) }

/-- `trainer_service.py::create_or_update_class` (lines 353-469):
normalization, price/existence/ownership checks, then
`create_or_update_class_checked`. -/
def create_or_update_class (st : State) (trainer_id room_id : Nat)
    (name : String) (capacity : Int) (start_time end_time : Nat) (price : ℚ)
    (class_id : Option Nat := none) : Res ClassSchedule :=
  let start_time := (start_time / 60) * 60
  let end_time := start_time + 60
  if price ≤ 0 then
    .error "Class price must be positive" st
  else
    match st.getTrainer trainer_id with
    | none => .error "Trainer not found" st
    | some _ =>
      if !(st.rooms.contains room_id) then
        .error "Room not found" st
      else
        match class_id with
        | none =>
            create_or_update_class_checked st trainer_id room_id name capacity
              start_time end_time price none
        | some cid =>
            match st.getClass cid with
            | none => .error "Class not found" st
            | some ec =>
              if ec.trainer_id ≠ trainer_id then
                .error "Trainer is not allowed to modify this class" st
              else
                create_or_update_class_checked st trainer_id room_id name capacity
                  start_time end_time price (some ec)

/-- `admin_service.py::admin_reassign_session_room` (lines 25-58). -/
def admin_reassign_session_room (st : State) (session_id new_room_id : Nat)
    (new_start : Option Nat := none) (new_end : Option Nat := none) :
    Res PrivateSession :=
  match st.getSession session_id with
  | none => .error "Private session not found" st
  | some _ =>
    if !(st.rooms.contains new_room_id) then
      .error "Room not found" st
    else
      reschedule_private_session st session_id (some new_room_id) new_start new_end

/-- `admin_service.py::admin_reschedule_class` (lines 60-97). -/
def admin_reschedule_class (st : State) (class_id new_room_id : Nat)
    (new_start new_end : Nat) : Res ClassSchedule :=
  match st.getClass class_id with
  | none => .error "Class not found" st
  | some cls =>
    if !(st.rooms.contains new_room_id) then
      .error "Room not found" st
    else
      create_or_update_class st cls.trainer_id new_room_id cls.name cls.capacity
        new_start new_end (pyFloatOr0 cls.price) (some cls.class_id)

/-- All `[start, end)` windows a member is committed to: their private
sessions plus the classes they hold a registration for. -/
def memberWindows (st : State) (member_id : Nat) : List (Nat × Nat) :=
  (st.sessions.filter (fun s => s.member_id == member_id)).map
    (fun s => (s.start_time, s.end_time)) ++
  (st.registrations.filter (fun r => r.member_id == member_id)).filterMap
    (fun r => (st.getClass r.class_id).map (fun c => (c.start_time, c.end_time)))

/-- No two windows in the list overlap (half-open). -/
def pairwiseDisjoint : List (Nat × Nat) → Bool
  | [] => true
  | w :: ws => ws.all (fun v => !(overlapFilter w.1 w.2 v.1 v.2)) && pairwiseDisjoint ws

/-- The member-level invariant asserted by the spec: no member holds two
overlapping commitments. -/
def memberOverlapFree (st : State) : Bool :=
  st.members.all (fun m => pairwiseDisjoint (memberWindows st m))

/-- The capacity invariant asserted by the spec: every class has at most
`capacity` registrations. -/
def capacityInvariant (st : State) : Prop :=
  ∀ c ∈ st.classes, (regCount st c.class_id : Int) ≤ c.capacity

instance (st : State) : Decidable (capacityInvariant st) := by
  unfold capacityInvariant; infer_instance

/-- The booking-path conflict checker as an ordered first-match scan:
exactly the six queries of `book_private_session` in source order with
their messages. -/
def book_conflict_scan (st : State) (member_id trainer_id room_id : Nat)
    (start_time end_time : Nat) : Option String :=
  if room_session_conflict st room_id start_time end_time then
    some "Room is already booked for another private session in that time"
  else if room_class_conflict st room_id start_time end_time then
    some "Room is already booked for a class in that time"
  else if trainer_session_conflict st trainer_id start_time end_time then
    some "Trainer is already booked for another private session in that time"
  else if trainer_class_conflict st trainer_id start_time end_time then
    some "Trainer is already teaching a class in that time"
  else if member_session_conflict st member_id start_time end_time then
    some "Member already has a private session in that time"
  else if member_class_conflict st member_id start_time end_time then
    some "Member is registered for a class in that time"
  else none

/-- The class-path conflict checker as an ordered first-match scan:
the four queries of `create_or_update_class` in source order — classes
before sessions for both resources, room checks sharing one message and
trainer checks sharing another. -/
def class_conflict_scan (st : State) (trainer_id room_id : Nat)
    (start_time end_time : Nat) (existing_class : Option ClassSchedule) : Option String :=
  if class_room_class_conflict st room_id start_time end_time existing_class then
    some "Room is not available for this time slot"
  else if room_session_conflict st room_id start_time end_time then
    some "Room is not available for this time slot"
  else if class_trainer_class_conflict st trainer_id start_time end_time existing_class then
    some "Trainer is not available for this time slot"
  else if trainer_session_conflict st trainer_id start_time end_time then
    some "Trainer is not available for this time slot"
  else none

/-- An empty store whose id pools hold the given members, trainers and
rooms (entity creation itself is outside the booking engine). -/
def baseState (members : List Nat) (trainers : List Trainer) (rooms : List Nat) : State :=
  { members := members
    trainers := trainers
    rooms := rooms
    sessions := []
    classes := []
    registrations := []
    availabilities := []
    billing := []
    next_session_id := 1
    next_class_id := 1
    next_registration_id := 1
    next_availability_id := 1
    next_bill_id := 1 }

/-- Member 1, trainers 1 and 2, rooms 1 and 2, nothing booked. -/
def twoTrainerBase : State :=
  baseState [1] [⟨1, "Ann", "Lee"⟩, ⟨2, "Bob", "Kim"⟩] [1, 2]

/-- Trainer 1 available Wednesday 14:00-15:00. -/
def c1_step1 : Res TrainerAvailability :=
  set_trainer_availability twoTrainerBase 1 2 840 900

/-- Trainer 2 available Wednesday 14:00-15:00. -/
def c1_step2 : Res TrainerAvailability :=
  set_trainer_availability c1_step1.state 2 2 840 900

/-- Member 1 books a private session with trainer 1 in room 1,
Wednesday 14:00-15:00 (minute stamps 3720-3780). -/
def c1_step3 : Res PrivateSession :=
  book_private_session c1_step2.state 1 1 1 3720 3780 none

/-- Trainer 2 creates a class in room 2 submitted for Wednesday
14:30-15:30, normalized by the engine to 14:00-15:00. -/
def c1_step4 : Res ClassSchedule :=
  create_or_update_class c1_step3.state 2 2 "Spin" 10 3750 3810 20 none

/-- Member 1 is registered into the overlapping class. -/
def c1_step5 : Res ClassRegistration :=
  register_for_class c1_step4.state 1 1

/-- Member 1, trainer 1, room 1, nothing booked. -/
def oneTrainerBase : State :=
  baseState [1] [⟨1, "Ann", "Lee"⟩] [1]

/-- Trainer 1 open Monday 09:00-11:00. -/
def c2_step1 : Res TrainerAvailability :=
  set_trainer_availability oneTrainerBase 1 0 540 660

/-- A touching window Monday 11:00-13:00 for the same trainer and day. -/
def c2_step2 : Res TrainerAvailability :=
  set_trainer_availability c2_step1.state 1 0 660 780

/-- Trainer 1 open Wednesday 14:00-15:00. -/
def c3_step1 : Res TrainerAvailability :=
  set_trainer_availability oneTrainerBase 1 2 840 900

/-- A capacity-1 class Wednesday 14:00-15:00. -/
def c3_step2 : Res ClassSchedule :=
  create_or_update_class c3_step1.state 1 1 "Yoga" 1 3720 3780 20 none

/-- Member 1 fills the class. -/
def c3_step3 : Res ClassRegistration :=
  register_for_class c3_step2.state 1 1

/-- The trainer updates the full class down to capacity 0. -/
def c3_step4 : Res ClassSchedule :=
  create_or_update_class c3_step3.state 1 1 "Yoga" 0 3720 3780 20 (some 1)

/-- Trainers 1 and 2, member 1, rooms 1 and 2; trainer 1 open Monday
09:00-17:00. -/
def c4_base : State :=
  { baseState [1] [⟨1, "Ann", "Lee"⟩, ⟨2, "Bob", "Kim"⟩] [1, 2] with
      availabilities := [⟨1, 1, 0, 540, 1020⟩]
      next_availability_id := 2 }

/-- `c4_base` plus a private session of trainer 2 occupying room 1,
Monday 10:00-11:00. -/
def c4_roomSessionState : State :=
  { c4_base with
      sessions := [⟨1, 1, 2, 1, 600, 660, some 75⟩]
      next_session_id := 2 }

/-- `c4_base` plus a class of trainer 2 occupying room 1,
Monday 10:00-11:00. -/
def c4_roomClassState : State :=
  { c4_base with
      classes := [⟨1, "Other", 2, 1, 600, 660, 5, some 20⟩]
      next_class_id := 2 }

/-- `c4_base` plus a private session of trainer 1 in room 2,
Monday 10:00-11:00. -/
def c4_trainerSessionState : State :=
  { c4_base with
      sessions := [⟨1, 1, 1, 2, 600, 660, some 75⟩]
      next_session_id := 2 }

/-- `c4_base` plus a class of trainer 1 in room 2, Monday 10:00-11:00. -/
def c4_trainerClassState : State :=
  { c4_base with
      classes := [⟨1, "Other", 1, 2, 600, 660, 5, some 20⟩]
      next_class_id := 2 }

/-- Trainer 1 open Thursday 09:00-17:00. -/
def c6_step1 : Res TrainerAvailability :=
  set_trainer_availability oneTrainerBase 1 3 540 1020

/-- Booking Thursday 09:00-10:00 in room 1 with trainer 1
(minute stamps 4860-4920). -/
def c6_step2 : Res PrivateSession :=
  book_private_session c6_step1.state 1 1 1 4860 4920 none

/-- Booking the back-to-back Thursday 10:00-11:00 window in the same
room with the same trainer. -/
def c6_step3 : Res PrivateSession :=
  book_private_session c6_step2.state 1 1 1 4920 4980 none

/-- Rescheduling the session of the C1 trace to its own current room,
start and end. -/
def c9_res : Res PrivateSession :=
  reschedule_private_session c1_step5.state 1 (some 1) (some 3720) (some 3780)

/-- A stored class whose `price` is 0, for the admin-reschedule claim. -/
def c10_state : State :=
  { oneTrainerBase with
      classes := [⟨1, "Zero", 1, 1, 3720, 3780, 5, some 0⟩]
      next_class_id := 2 }

/-- A class stored for a trainer with no availability windows at all
(for the class-listing claim). -/
def c7_state : State :=
  { oneTrainerBase with
      classes := [⟨1, "Solo", 1, 1, 600, 660, 5, some 20⟩]
      next_class_id := 2 }

/-- C1 (counterexample): the member-level non-overlap invariant is not
maintained, and `register_for_class` does not reject a class overlapping
the member's private session.  In a state reached by legal operations —
trainer 1 and trainer 2 each open Wednesday 14:00-15:00, member 1 books
a 14:00-15:00 private session with trainer 1 in room 1, trainer 2
creates an overlapping class in room 2 — registering member 1 for that
class succeeds (no member `ResourceConflict`), leaving the member with
two overlapping commitments. -/
theorem c1_member_conflict_claim_false :
    c1_step1.isOk = true ∧ c1_step2.isOk = true ∧ c1_step3.isOk = true ∧
    c1_step4.isOk = true ∧ c1_step5.isOk = true ∧
    memberOverlapFree c1_step5.state = false := by
  decide

/-- C1 (amended): `register_for_class` succeeds exactly when the member
and class exist, the class window lies inside the trainer's current
availability, the registration is not a duplicate and the class is not
full — no member-level conflict check of any kind appears among its
conditions, so an overlap with the member's private sessions does not
block registration. -/
theorem register_for_class_success_iff (st : State) (member_id class_id : Nat) :
    (register_for_class st member_id class_id).isOk = true ↔
      st.members.contains member_id = true ∧
      ∃ cls, st.getClass class_id = some cls ∧
        ensure_trainer_availability st cls.trainer_id cls.start_time cls.end_time = none ∧
        st.registrations.any (fun r => r.member_id == member_id &&
          r.class_id == class_id) = false ∧
        (regCount st class_id : Int) < cls.capacity := by
  unfold register_for_class
  cases hm : st.members.contains member_id
  · simp [hm, Res.isOk]
  · cases hc : st.getClass class_id with
    | none => simp [hm, hc, Res.isOk]
    | some cls =>
      cases ha : ensure_trainer_availability st cls.trainer_id cls.start_time
          cls.end_time with
      | some msg => simp [hm, hc, ha, Res.isOk]
      | none =>
        cases hd : st.registrations.any (fun r => r.member_id == member_id &&
            r.class_id == class_id) with
        | true => simp [hm, hc, ha, hd, Res.isOk]
        | false =>
          by_cases hcap : (regCount st class_id : Int) ≥ cls.capacity
          · simp [hm, hc, ha, hd, hcap, Res.isOk]
          · simp [hm, hc, ha, hd, hcap, Res.isOk]
            omega

/-- C2 (counterexample): `set_trainer_availability` does not reject a
window that merely touches an existing one at a shared endpoint: after
trainer 1 opens Monday 09:00-11:00, adding Monday 11:00-13:00 — whose
start equals the existing window's end — succeeds instead of failing
with an overlap error. -/
theorem c2_touching_windows_accepted :
    c2_step1.isOk = true ∧ c2_step2.isOk = true := by
  decide

/-- C2 (amended): for well-formed windows the `<=`/`>=` boundary variants
in the availability overlap condition are equivalent to the strict
half-open overlap `avStart < newEnd AND newStart < avEnd`; in particular
windows that only share an endpoint are not treated as overlapping, just
as in booking-window overlap. -/
theorem availability_overlap_iff_strict (av : TrainerAvailability) (s e : Nat)
    (hav : av.start_time < av.end_time) (hse : s < e) :
    (availability_window_overlaps av s e = true ↔
      (av.start_time < e ∧ s < av.end_time)) ∧
    (s = av.end_time ∨ e = av.start_time →
      availability_window_overlaps av s e = false) := by
  unfold availability_window_overlaps
  constructor
  · simp only [Bool.or_eq_true, Bool.and_eq_true, decide_eq_true_eq]
    omega
  · intro h
    rw [← Bool.not_eq_true]
    simp only [Bool.or_eq_true, Bool.and_eq_true, decide_eq_true_eq]
    omega

/-- C2 (witness): the amended equivalence evaluated at the stored window
09:00-11:00 against the touching proposal 11:00-13:00. -/
theorem availability_overlap_iff_strict_witness :
    (availability_window_overlaps ⟨1, 1, 0, 540, 660⟩ 660 780 = true ↔
      (540 < 780 ∧ 660 < 660)) ∧
    (660 = 660 ∨ 780 = 540 →
      availability_window_overlaps ⟨1, 1, 0, 540, 660⟩ 660 780 = false) :=
  availability_overlap_iff_strict ⟨1, 1, 0, 540, 660⟩ 660 780 (by decide) (by decide)

/-- C3 (counterexample): the capacity invariant is not preserved by
`create_or_update_class`: trainer 1 creates a capacity-1 class, member 1
fills it, and the trainer then updates the class down to capacity 0 —
the update succeeds without looking at the registration count, leaving
one registration against capacity 0. -/
theorem c3_capacity_invariant_broken :
    c3_step1.isOk = true ∧ c3_step2.isOk = true ∧ c3_step3.isOk = true ∧
    c3_step4.isOk = true ∧ ¬ capacityInvariant c3_step4.state := by
  decide

/-- `ensure_class_billing` leaves the class table untouched. -/
theorem ensure_class_billing_classes (st : State) (m : Nat) (cls : ClassSchedule) :
    (ensure_class_billing st m cls).classes = st.classes := by
  unfold ensure_class_billing
  dsimp only
  split <;> rfl

/-- `ensure_class_billing` leaves the registration table untouched. -/
theorem ensure_class_billing_registrations (st : State) (m : Nat) (cls : ClassSchedule) :
    (ensure_class_billing st m cls).registrations = st.registrations := by
  unfold ensure_class_billing
  dsimp only
  split <;> rfl

/-- `register_for_class` either leaves the store unchanged or, having
found the class and verified spare capacity, appends one registration
row and upserts billing. -/
theorem register_for_class_state_cases (st : State) (m cid : Nat) :
    (register_for_class st m cid).state = st ∨
    ∃ cls, st.getClass cid = some cls ∧
      (regCount st cid : Int) < cls.capacity ∧
      (register_for_class st m cid).state =
        ensure_class_billing
          { st with
              registrations := st.registrations ++ [⟨st.next_registration_id, m, cid, false⟩],
              next_registration_id := st.next_registration_id + 1 } m cls := by
  unfold register_for_class
  cases hm : st.members.contains m
  · left; simp [hm, Res.state]
  · cases hc : st.getClass cid with
    | none => left; simp [hm, hc, Res.state]
    | some cls =>
      cases ha : ensure_trainer_availability st cls.trainer_id cls.start_time cls.end_time with
      | some msg => left; simp [hm, hc, ha, Res.state]
      | none =>
        cases hd : st.registrations.any (fun r => r.member_id == m && r.class_id == cid) with
        | true => left; simp [hm, hc, ha, hd, Res.state]
        | false =>
          by_cases hcap : (regCount st cid : Int) ≥ cls.capacity
          · left; simp [hm, hc, ha, hd, hcap, Res.state]
          · right
            refine ⟨cls, rfl, by omega, ?_⟩
            simp [hm, hc, ha, hd, hcap, Res.state]

/-- Uniqueness of rows under a `Nodup` primary-key column. -/
theorem nodup_key_unique {α : Type} {key : α → Nat} {l : List α}
    (h : (l.map key).Nodup) {a b : α} (ha : a ∈ l) (hb : b ∈ l)
    (hk : key a = key b) : a = b :=
  List.inj_on_of_nodup_map h ha hb hk

/-- C3 (amended): `register_for_class` does preserve the capacity
invariant — its guard admits a new registration only strictly below
capacity, it touches no other class, and billing writes are irrelevant
to it — given the primary-key uniqueness of class ids that the database
guarantees.  The invariant is nevertheless not maintained globally,
because `create_or_update_class` updates capacity without consulting the
registration count (see the counterexample). -/
theorem register_for_class_preserves_capacity (st : State)
    (member_id class_id : Nat)
    (hids : (st.classes.map (fun c => c.class_id)).Nodup)
    (hinv : capacityInvariant st) :
    capacityInvariant (register_for_class st member_id class_id).state := by
  rcases register_for_class_state_cases st member_id class_id with h | ⟨cls, hc, hlt, h⟩
  · rw [h]; exact hinv
  · rw [h]
    intro c hcmem
    rw [ensure_class_billing_classes] at hcmem
    unfold regCount
    rw [ensure_class_billing_registrations]
    dsimp only at hcmem ⊢
    rw [List.filter_append]
    simp only [List.length_append, List.filter_cons, List.filter_nil]
    by_cases hceq : class_id = c.class_id
    · have hclsmem : cls ∈ st.classes := List.mem_of_find?_eq_some hc
      have hclsid : cls.class_id = class_id := by
        have := List.find?_some hc
        simpa using this
      have hcc : c = cls := nodup_key_unique hids hcmem hclsmem
        (by rw [← hceq, hclsid])
      subst hcc
      simp only [hceq, beq_self_eq_true, if_pos, List.length_singleton]
      unfold regCount at hlt
      simp only [hceq] at hlt
      push_cast
      omega
    · have hbeq : ((⟨st.next_registration_id, member_id, class_id, false⟩ :
          ClassRegistration).class_id == c.class_id) = false := by
        simpa using hceq
      simp only [hbeq, Bool.false_eq_true, if_false, List.length_nil, Nat.add_zero]
      exact hinv c hcmem

/-- C3 (witness): preservation applied to the concrete state of the C3
trace right after the capacity-1 class is created. -/
theorem register_for_class_preserves_capacity_witness :
    capacityInvariant (register_for_class c3_step2.state 1 1).state :=
  register_for_class_preserves_capacity c3_step2.state 1 1 (by decide) (by decide)

/-- C4 (counterexample): in the class create/update path the checks do
not each carry a distinct error kind: a room conflict against a private
session and a room conflict against another class raise the identical
message, and likewise for the two trainer checks — four checks share
two messages, unlike the booking path's six distinct ones. -/
theorem c4_class_path_error_kinds_collide :
    (create_or_update_class c4_roomSessionState 1 1 "X" 5 600 660 10 none).errMsg =
      some "Room is not available for this time slot" ∧
    (create_or_update_class c4_roomClassState 1 1 "X" 5 600 660 10 none).errMsg =
      some "Room is not available for this time slot" ∧
    (create_or_update_class c4_trainerSessionState 1 1 "X" 5 600 660 10 none).errMsg =
      some "Trainer is not available for this time slot" ∧
    (create_or_update_class c4_trainerClassState 1 1 "X" 5 600 660 10 none).errMsg =
      some "Trainer is not available for this time slot" := by
  decide

/-- C4 (amended): the booking path runs its six conflict checks in the
fixed order room-vs-sessions, room-vs-classes, trainer-vs-sessions,
trainer-vs-classes, member-vs-sessions, member-vs-registered-classes,
raising on the first match with six pairwise-distinct messages; the
class path runs its four checks in the order room-vs-classes,
room-vs-sessions, trainer-vs-classes, trainer-vs-sessions (classes
before sessions, the reverse of the booking path's inner order),
raising on the first match, with the two room checks sharing one
message and the two trainer checks sharing another. -/
theorem conflict_check_order :
    (∀ (st : State) (member_id trainer_id room_id start_time end_time : Nat)
        (price : Option ℚ),
      start_time < end_time →
      st.members.contains member_id = true →
      (st.getTrainer trainer_id).isSome = true →
      st.rooms.contains room_id = true →
      ensure_trainer_availability st trainer_id start_time end_time = none →
      (book_private_session st member_id trainer_id room_id start_time end_time
          price).errMsg =
        book_conflict_scan st member_id trainer_id room_id start_time end_time) ∧
    (∀ (st : State) (trainer_id room_id : Nat) (name : String) (capacity : Int)
        (start_time end_time : Nat) (price : ℚ)
        (existing_class : Option ClassSchedule),
      (create_or_update_class_checked st trainer_id room_id name capacity
          start_time end_time price existing_class).errMsg =
        (if trainer_supports_window st trainer_id start_time end_time then
          class_conflict_scan st trainer_id room_id start_time end_time existing_class
        else some "Trainer does not have availability for this time window")) ∧
    ["Room is already booked for another private session in that time",
     "Room is already booked for a class in that time",
     "Trainer is already booked for another private session in that time",
     "Trainer is already teaching a class in that time",
     "Member already has a private session in that time",
     "Member is registered for a class in that time"].Nodup := by
  refine ⟨?_, ?_, by decide⟩
  · intro st m t r s e p h1 h2 h3 h4 h5
    obtain ⟨tr, htr⟩ := Option.isSome_iff_exists.mp h3
    unfold book_private_session book_conflict_scan
    rw [if_neg (by omega), htr]
    simp only [h2, h4, h5, Bool.not_true, Bool.false_eq_true, if_false]
    by_cases hb1 : room_session_conflict st r s e <;>
    by_cases hb2 : room_class_conflict st r s e <;>
    by_cases hb3 : trainer_session_conflict st t s e <;>
    by_cases hb4 : trainer_class_conflict st t s e <;>
    by_cases hb5 : member_session_conflict st m s e <;>
    by_cases hb6 : member_class_conflict st m s e <;>
    simp [hb1, hb2, hb3, hb4, hb5, hb6, Res.errMsg]
  · intro st t r nm cap s e pr ex
    unfold create_or_update_class_checked class_conflict_scan
    by_cases hsup : trainer_supports_window st t s e <;>
    by_cases hb1 : class_room_class_conflict st r s e ex <;>
    by_cases hb2 : room_session_conflict st r s e <;>
    by_cases hb3 : class_trainer_class_conflict st t s e ex <;>
    by_cases hb4 : trainer_session_conflict st t s e <;>
    cases ex <;>
    simp [hsup, hb1, hb2, hb3, hb4, Res.errMsg]

/-- C4 (witness): the booking-path equality instantiated at the concrete
state with trainer 1 open Thursday 09:00-17:00. -/
theorem conflict_check_order_witness :
    (book_private_session c6_step1.state 1 1 1 4860 4920 none).errMsg =
      book_conflict_scan c6_step1.state 1 1 1 4860 4920 :=
  conflict_check_order.1 c6_step1.state 1 1 1 4860 4920 none (by decide)
    (by decide) (by decide) (by decide) (by decide)

/-- `book_private_session` either fails leaving the store as it was, or
succeeds. -/
theorem book_private_session_state_or (st : State)
    (m t r s e : Nat) (p : Option ℚ) :
    (book_private_session st m t r s e p).state = st ∨
    (book_private_session st m t r s e p).isOk = true := by
  unfold book_private_session
  by_cases h1 : s ≥ e
  · left; simp [h1, Res.state]
  · cases hm : st.members.contains m
    · left; simp [h1, hm, Res.state]
    · cases htr : st.getTrainer t with
      | none => left; simp [h1, hm, htr, Res.state]
      | some tr =>
        cases hr : st.rooms.contains r
        · left; simp [h1, hm, htr, hr, Res.state]
        · cases ha : ensure_trainer_availability st t s e with
          | some msg => left; simp [h1, hm, htr, hr, ha, Res.state]
          | none =>
            by_cases hb1 : room_session_conflict st r s e
            · left; simp [h1, hm, htr, hr, ha, hb1, Res.state]
            · by_cases hb2 : room_class_conflict st r s e
              · left; simp [h1, hm, htr, hr, ha, hb1, hb2, Res.state]
              · by_cases hb3 : trainer_session_conflict st t s e
                · left; simp [h1, hm, htr, hr, ha, hb1, hb2, hb3, Res.state]
                · by_cases hb4 : trainer_class_conflict st t s e
                  · left; simp [h1, hm, htr, hr, ha, hb1, hb2, hb3, hb4, Res.state]
                  · by_cases hb5 : member_session_conflict st m s e
                    · left
                      simp [h1, hm, htr, hr, ha, hb1, hb2, hb3, hb4, hb5, Res.state]
                    · by_cases hb6 : member_class_conflict st m s e
                      · left
                        simp [h1, hm, htr, hr, ha, hb1, hb2, hb3, hb4, hb5, hb6,
                          Res.state]
                      · right
                        simp [h1, hm, htr, hr, ha, hb1, hb2, hb3, hb4, hb5, hb6,
                          Res.isOk]

/-- The checked tail of class create/update either fails leaving the
store as it was, or succeeds. -/
theorem create_or_update_class_checked_state_or (st : State) (t r : Nat)
    (nm : String) (cap : Int) (s e : Nat) (pr : ℚ)
    (ex : Option ClassSchedule) :
    (create_or_update_class_checked st t r nm cap s e pr ex).state = st ∨
    (create_or_update_class_checked st t r nm cap s e pr ex).isOk = true := by
  unfold create_or_update_class_checked
  by_cases hsup : trainer_supports_window st t s e
  · by_cases hb1 : class_room_class_conflict st r s e ex
    · left; simp [hsup, hb1, Res.state]
    · by_cases hb2 : room_session_conflict st r s e
      · left; simp [hsup, hb1, hb2, Res.state]
      · by_cases hb3 : class_trainer_class_conflict st t s e ex
        · left; simp [hsup, hb1, hb2, hb3, Res.state]
        · by_cases hb4 : trainer_session_conflict st t s e
          · left; simp [hsup, hb1, hb2, hb3, hb4, Res.state]
          · right
            cases ex <;> simp [hsup, hb1, hb2, hb3, hb4, Res.isOk]
  · left; simp [hsup, Res.state]

/-- `create_or_update_class` either fails leaving the store as it was,
or succeeds. -/
theorem create_or_update_class_state_or (st : State) (t r : Nat)
    (nm : String) (cap : Int) (s e : Nat) (pr : ℚ) (cid : Option Nat) :
    (create_or_update_class st t r nm cap s e pr cid).state = st ∨
    (create_or_update_class st t r nm cap s e pr cid).isOk = true := by
  unfold create_or_update_class
  by_cases hp : pr ≤ 0
  · left; simp [hp, Res.state]
  · cases htr : st.getTrainer t with
    | none => left; simp [hp, htr, Res.state]
    | some tr =>
      cases hr : st.rooms.contains r
      · left; simp [hp, htr, hr, Res.state]
      · cases cid with
        | none =>
            simpa [hp, htr, hr] using
              create_or_update_class_checked_state_or st t r nm cap
                ((s / 60) * 60) ((s / 60) * 60 + 60) pr none
        | some c_id =>
            cases hc : st.getClass c_id with
            | none => left; simp [hp, htr, hr, hc, Res.state]
            | some ec =>
              by_cases hown : ec.trainer_id = t
              · simpa [hp, htr, hr, hc, hown] using
                  create_or_update_class_checked_state_or st t r nm cap
                    ((s / 60) * 60) ((s / 60) * 60 + 60) pr (some ec)
              · left; simp [hp, htr, hr, hc, hown, Res.state]

/-- `register_for_class` either fails leaving the store as it was, or
succeeds. -/
theorem register_for_class_state_or (st : State) (m cid : Nat) :
    (register_for_class st m cid).state = st ∨
    (register_for_class st m cid).isOk = true := by
  unfold register_for_class
  cases hm : st.members.contains m
  · left; simp [hm, Res.state]
  · cases hc : st.getClass cid with
    | none => left; simp [hm, hc, Res.state]
    | some cls =>
      cases ha : ensure_trainer_availability st cls.trainer_id cls.start_time
          cls.end_time with
      | some msg => left; simp [hm, hc, ha, Res.state]
      | none =>
        cases hd : st.registrations.any (fun rg => rg.member_id == m &&
            rg.class_id == cid) with
        | true => left; simp [hm, hc, ha, hd, Res.state]
        | false =>
          by_cases hcap : (regCount st cid : Int) ≥ cls.capacity
          · left; simp [hm, hc, ha, hd, hcap, Res.state]
          · right; simp [hm, hc, ha, hd, hcap, Res.isOk]

/-- C5: every failing call of `book_private_session`,
`create_or_update_class` or `register_for_class` — whatever the error —
returns the store exactly as it was: all validation, availability,
ownership, duplicate, capacity and conflict checks complete before any
row is created or mutated. -/
theorem failure_leaves_state_unchanged :
    (∀ (st : State) (member_id trainer_id room_id start_time end_time : Nat)
        (price : Option ℚ) (msg : String) (stf : State),
      book_private_session st member_id trainer_id room_id start_time end_time
          price = .error msg stf → stf = st) ∧
    (∀ (st : State) (trainer_id room_id : Nat) (name : String) (capacity : Int)
        (start_time end_time : Nat) (price : ℚ) (class_id : Option Nat)
        (msg : String) (stf : State),
      create_or_update_class st trainer_id room_id name capacity start_time
          end_time price class_id = .error msg stf → stf = st) ∧
    (∀ (st : State) (member_id class_id : Nat) (msg : String) (stf : State),
      register_for_class st member_id class_id = .error msg stf → stf = st) := by
  refine ⟨?_, ?_, ?_⟩
  · intro st m t r s e p msg stf h
    rcases book_private_session_state_or st m t r s e p with hs | hok
    · rw [h] at hs; exact hs
    · rw [h] at hok; simp [Res.isOk] at hok
  · intro st t r nm cap s e pr cid msg stf h
    rcases create_or_update_class_state_or st t r nm cap s e pr cid with hs | hok
    · rw [h] at hs; exact hs
    · rw [h] at hok; simp [Res.isOk] at hok
  · intro st m cid msg stf h
    rcases register_for_class_state_or st m cid with hs | hok
    · rw [h] at hs; exact hs
    · rw [h] at hok; simp [Res.isOk] at hok

/-- C5 (witness): a failing registration against the empty store leaves
it unchanged. -/
theorem failure_leaves_state_unchanged_witness :
    baseState [] [] [] = baseState [] [] [] :=
  failure_leaves_state_unchanged.2.2 (baseState [] [] []) 1 1
    "Member not found" (baseState [] [] []) (by decide)

/-- C6: the booking overlap predicate — both `_time_overlaps` and the
inline filter used by every conflict query — equals
`aStart < bEnd AND bStart < aEnd` on half-open windows; it is symmetric,
reflexive on non-empty windows, false for back-to-back windows sharing
an endpoint, and concretely two bookings Thu 09:00-10:00 and
Thu 10:00-11:00 in the same room with the same trainer both succeed. -/
theorem booking_overlap_characterization :
    (∀ aS aE bS bE : Nat,
      time_overlaps aS aE bS bE = (decide (aS < bE) && decide (bS < aE)) ∧
      overlapFilter aS aE bS bE = (decide (aS < bE) && decide (bS < aE)) ∧
      time_overlaps aS aE bS bE = time_overlaps bS bE aS aE ∧
      (aS < aE → time_overlaps aS aE aS aE = true) ∧
      time_overlaps aS aE aE bE = false ∧
      time_overlaps aE bE aS aE = false) ∧
    c6_step1.isOk = true ∧ c6_step2.isOk = true ∧ c6_step3.isOk = true := by
  refine ⟨?_, by decide, by decide, by decide⟩
  intro aS aE bS bE
  refine ⟨?_, ?_, ?_, ?_, ?_, ?_⟩
  · rw [Bool.eq_iff_iff]
    simp [time_overlaps]
    omega
  · rfl
  · rw [Bool.eq_iff_iff]
    simp [time_overlaps]
    omega
  · intro h
    simp [time_overlaps]
    omega
  · simp [time_overlaps]
  · simp [time_overlaps]

/-- C6 (witness): reflexivity of the overlap predicate on the non-empty
window 09:00-10:00. -/
theorem booking_overlap_characterization_witness :
    time_overlaps 540 600 540 600 = true :=
  ((booking_overlap_characterization.1 540 600 540 600).2.2.2.1) (by decide)

/-- Sorted insertion preserves membership. -/
theorem mem_insertByStart (c x : ClassSchedule) (l : List ClassSchedule) :
    x ∈ insertByStart c l ↔ x ∈ c :: l := by
  induction l with
  | nil => simp [insertByStart]
  | cons a as ih =>
    unfold insertByStart
    by_cases hlt : c.start_time < a.start_time
    · simp [hlt]
    · simp only [hlt, if_false, List.mem_cons, ih]
      tauto

/-- Sorting by start time preserves membership. -/
theorem mem_sortByStart (x : ClassSchedule) (l : List ClassSchedule) :
    x ∈ sortByStart l ↔ x ∈ l := by
  induction l with
  | nil => simp [sortByStart]
  | cons a as ih => simp [sortByStart, mem_insertByStart, List.mem_cons, ih]

/-- C7: for a trainer with zero availability windows on a weekday, the
booking-path check `_ensure_trainer_availability` fails (so booking and
registration are rejected with the no-availability error), while the
class-listing check `_class_within_trainer_availability` passes
vacuously, so the trainer's existing classes stay visible in
`list_upcoming_classes`. -/
theorem zero_windows_booking_vs_listing :
    (∀ (st : State) (trainer_id start_time end_time : Nat),
      st.availabilities.filter (fun av => av.trainer_id == trainer_id &&
        av.day_of_week == weekday start_time) = [] →
      ensure_trainer_availability st trainer_id start_time end_time =
        some "Trainer has no availability on this day.") ∧
    (∀ (st : State) (member_id class_id : Nat) (cls : ClassSchedule),
      st.members.contains member_id = true →
      st.getClass class_id = some cls →
      st.availabilities.filter (fun av => av.trainer_id == cls.trainer_id &&
        av.day_of_week == weekday cls.start_time) = [] →
      register_for_class st member_id class_id =
        .error "Trainer has no availability on this day." st) ∧
    (∀ (st : State) (cls : ClassSchedule),
      st.availabilities.filter (fun av => av.trainer_id == cls.trainer_id &&
        av.day_of_week == weekday cls.start_time) = [] →
      class_within_trainer_availability st cls = true) ∧
    (∀ (st : State) (cls : ClassSchedule) (now : Nat),
      cls ∈ st.classes → now ≤ cls.start_time →
      st.availabilities.filter (fun av => av.trainer_id == cls.trainer_id &&
        av.day_of_week == weekday cls.start_time) = [] →
      cls ∈ list_upcoming_classes st now) := by
  have h1 : ∀ (st : State) (trainer_id start_time end_time : Nat),
      st.availabilities.filter (fun av => av.trainer_id == trainer_id &&
        av.day_of_week == weekday start_time) = [] →
      ensure_trainer_availability st trainer_id start_time end_time =
        some "Trainer has no availability on this day." := by
    intro st t s e hf
    unfold ensure_trainer_availability
    dsimp only
    rw [hf]
    simp
  have h3 : ∀ (st : State) (cls : ClassSchedule),
      st.availabilities.filter (fun av => av.trainer_id == cls.trainer_id &&
        av.day_of_week == weekday cls.start_time) = [] →
      class_within_trainer_availability st cls = true := by
    intro st cls hf
    unfold class_within_trainer_availability
    dsimp only
    rw [hf]
    simp
  refine ⟨h1, ?_, h3, ?_⟩
  · intro st m cid cls hm hc hf
    have hm' : m ∈ st.members := by simpa using hm
    unfold register_for_class
    simp [hm, hm', hc, h1 st cls.trainer_id cls.start_time cls.end_time hf]
  · intro st cls now hmem hnow hf
    unfold list_upcoming_classes
    rw [List.mem_filter, mem_sortByStart, List.mem_filter]
    exact ⟨⟨hmem, by simpa using hnow⟩, h3 st cls hf⟩

/-- C7 (witness): the no-availability error on the empty store, and a
class of the window-less trainer 1 remaining listed. -/
theorem zero_windows_booking_vs_listing_witness :
    ensure_trainer_availability (baseState [] [] []) 1 0 60 =
      some "Trainer has no availability on this day." ∧
    (⟨1, "Solo", 1, 1, 600, 660, 5, some 20⟩ : ClassSchedule) ∈
      list_upcoming_classes c7_state 0 :=
  ⟨zero_windows_booking_vs_listing.1 (baseState [] [] []) 1 0 60 (by decide),
   zero_windows_booking_vs_listing.2.2.2 c7_state
     ⟨1, "Solo", 1, 1, 600, 660, 5, some 20⟩ 0 (by decide) (by decide) (by decide)⟩

/-- C9 (counterexample): rescheduling a private session to its own
current room, start and end can fail even though the window is still
inside the trainer's availability.  In the reachable state of the C1
trace — where the member was legally registered into an overlapping
class, because registration performs no member-conflict check — the
self-reschedule of session 1 is rejected with the member-registered-
class conflict. -/
theorem c9_self_reschedule_claim_false :
    c1_step5.state.getSession 1 = some ⟨1, 1, 1, 1, 3720, 3780, some 75⟩ ∧
    ensure_trainer_availability c1_step5.state 1 3720 3780 = none ∧
    c9_res = .error "Member is registered for a class in that time" c1_step5.state := by
  decide

/-- Passing a row's own id through the Python `or` fallback returns it. -/
theorem pyOrId_self (v : Nat) : pyOrId (some v) v = v := by
  unfold pyOrId
  dsimp only
  rw [ite_self]

/-- Rewriting the first match of `p` to itself leaves the table as it
was. -/
theorem updateFirst_self {α : Type} (p : α → Bool) (l : List α) (x : α)
    (h : l.find? p = some x) : updateFirst p (fun _ => x) l = l := by
  induction l with
  | nil => rfl
  | cons a as ih =>
    cases hpa : p a
    · rw [List.find?_cons_of_neg _ (by simp [hpa])] at h
      unfold updateFirst
      rw [hpa]
      simp [ih h]
    · rw [List.find?_cons_of_pos _ hpa] at h
      injection h with h
      subst h
      unfold updateFirst
      rw [hpa]
      simp

/-- The private-session billing upsert writes only billing rows. -/
theorem ensure_private_billing_frame (st : State) (ps : PrivateSession)
    (tr : Option Trainer) :
    (ensure_private_billing st ps tr).sessions = st.sessions ∧
    (ensure_private_billing st ps tr).classes = st.classes ∧
    (ensure_private_billing st ps tr).registrations = st.registrations ∧
    (ensure_private_billing st ps tr).availabilities = st.availabilities := by
  unfold ensure_private_billing
  dsimp only
  split <;> exact ⟨rfl, rfl, rfl, rfl⟩

/-- C9 (amended): `reschedule_private_session` excludes the session
itself from the session-table conflict scans, so rescheduling to the
session's own room, start and end succeeds — and mutates nothing but
the session row (rewritten to an identical one) and billing, leaving
`member_id`, `trainer_id` and `price` unchanged — provided the window is
still inside the trainer's availability AND no other commitment
conflicts; in particular a class the member is registered in that
overlaps the window (possible in reachable states, see the
counterexample) makes the self-reschedule fail. -/
theorem reschedule_self_succeeds (st : State) (sid : Nat) (priv : PrivateSession)
    (hget : st.getSession sid = some priv)
    (hlt : priv.start_time < priv.end_time)
    (hav : ensure_trainer_availability st priv.trainer_id priv.start_time
      priv.end_time = none)
    (hrs : room_session_conflict_excl st priv.room_id priv.start_time
      priv.end_time priv.session_id = false)
    (hrc : room_class_conflict st priv.room_id priv.start_time
      priv.end_time = false)
    (hts : trainer_session_conflict_excl st priv.trainer_id priv.start_time
      priv.end_time priv.session_id = false)
    (htc : trainer_class_conflict st priv.trainer_id priv.start_time
      priv.end_time = false)
    (hms : member_session_conflict_excl st priv.member_id priv.start_time
      priv.end_time priv.session_id = false)
    (hmc : member_class_conflict st priv.member_id priv.start_time
      priv.end_time = false) :
    ∃ stf, reschedule_private_session st sid (some priv.room_id)
        (some priv.start_time) (some priv.end_time) = .ok priv stf ∧
      stf.sessions = st.sessions ∧ stf.classes = st.classes ∧
      stf.registrations = st.registrations ∧
      stf.availabilities = st.availabilities := by
  have hsid : priv.session_id = sid := by simpa using List.find?_some hget
  have hfind : st.sessions.find?
      (fun s => s.session_id == priv.session_id) = some priv := by
    rw [hsid]
    exact hget
  unfold reschedule_private_session
  rw [hget]
  dsimp only [Option.getD]
  rw [pyOrId_self]
  rw [if_neg (by omega)]
  rw [hav]
  dsimp only
  rw [hrs, hrc, hts, htc, hms, hmc]
  simp only [Bool.false_eq_true, if_false]
  refine ⟨_, rfl, ?_, ?_, ?_, ?_⟩
  · rw [(ensure_private_billing_frame _ _ _).1]
    exact updateFirst_self _ _ _ hfind
  · rw [(ensure_private_billing_frame _ _ _).2.1]
  · rw [(ensure_private_billing_frame _ _ _).2.2.1]
  · rw [(ensure_private_billing_frame _ _ _).2.2.2]

/-- C9 (witness): self-reschedule of the lone booked session of the C6
trace succeeds and leaves every scheduling table unchanged. -/
theorem reschedule_self_succeeds_witness :
    ∃ stf, reschedule_private_session c6_step2.state 1 (some 1) (some 4860)
        (some 4920) = .ok ⟨1, 1, 1, 1, 4860, 4920, some 75⟩ stf ∧
      stf.sessions = c6_step2.state.sessions ∧
      stf.classes = c6_step2.state.classes ∧
      stf.registrations = c6_step2.state.registrations ∧
      stf.availabilities = c6_step2.state.availabilities :=
  reschedule_self_succeeds c6_step2.state 1 ⟨1, 1, 1, 1, 4860, 4920, some 75⟩
    (by decide) (by decide) (by decide) (by decide) (by decide) (by decide)
    (by decide) (by decide) (by decide)

/-- C10: for a stored class whose price is NULL or 0,
`admin_reschedule_class` always fails with the non-positive-price
validation error, for every existing target room and any new times: the
delegation forwards `float(cls.price or 0)` and the class-update path
rejects `price <= 0` before any other check, so such a class cannot be
rescheduled through the admin operation. -/
theorem admin_reschedule_zero_price_always_fails (st : State)
    (class_id new_room_id new_start new_end : Nat) (cls : ClassSchedule)
    (hget : st.getClass class_id = some cls)
    (hprice : cls.price = none ∨ cls.price = some 0)
    (hroom : st.rooms.contains new_room_id = true) :
    admin_reschedule_class st class_id new_room_id new_start new_end =
      .error "Class price must be positive" st := by
  unfold admin_reschedule_class
  rw [hget]
  dsimp only
  rw [hroom]
  simp only [Bool.not_true, Bool.false_eq_true, if_false]
  unfold create_or_update_class
  have hple : pyFloatOr0 cls.price ≤ 0 := by
    rcases hprice with h | h <;> simp [h, pyFloatOr0]
  rw [if_pos hple]

/-- C10 (witness): the zero-priced class cannot be admin-rescheduled. -/
theorem admin_reschedule_zero_price_always_fails_witness :
    admin_reschedule_class c10_state 1 1 4000 4100 =
      .error "Class price must be positive" c10_state :=
  admin_reschedule_zero_price_always_fails c10_state 1 1 4000 4100
    ⟨1, "Zero", 1, 1, 3720, 3780, 5, some 0⟩ (by decide) (Or.inr (by decide))
    (by decide)

end Gym

namespace Gym

/-- The rewritten row of an in-place update is in the updated table. -/
theorem updateFirst_mem {α : Type} (p : α → Bool) (f : α → α) (l : List α) (x : α)
    (h : l.find? p = some x) : f x ∈ updateFirst p f l := by
  induction l with
  | nil => simp [List.find?] at h
  | cons a as ih =>
    cases hpa : p a
    · rw [List.find?_cons_of_neg _ (by simp [hpa])] at h
      unfold updateFirst
      rw [hpa]
      simp only [Bool.false_eq_true, if_false, List.mem_cons]
      exact Or.inr (ih h)
    · rw [List.find?_cons_of_pos _ hpa] at h
      injection h with h
      subst h
      unfold updateFirst
      rw [hpa]
      simp

/-- On success the checked tail persists a class carrying exactly the
window it was given. -/
theorem create_or_update_class_checked_ok (st : State) (t r : Nat) (nm : String)
    (cap : Int) (s e : Nat) (pr : ℚ) (ex : Option ClassSchedule)
    (c : ClassSchedule) (stf : State)
    (hex : ∀ ec, ex = some ec →
      st.classes.find? (fun cc => cc.class_id == ec.class_id) = some ec)
    (h : create_or_update_class_checked st t r nm cap s e pr ex = .ok c stf) :
    c.start_time = s ∧ c.end_time = e ∧ c ∈ stf.classes := by
  unfold create_or_update_class_checked at h
  cases hsup : trainer_supports_window st t s e <;> rw [hsup] at h
  · simp at h
  · cases hb1 : class_room_class_conflict st r s e ex <;> rw [hb1] at h
    case true => simp at h
    cases hb2 : room_session_conflict st r s e <;> rw [hb2] at h
    case true => simp at h
    cases hb3 : class_trainer_class_conflict st t s e ex <;> rw [hb3] at h
    case true => simp at h
    cases hb4 : trainer_session_conflict st t s e <;> rw [hb4] at h
    case true => simp at h
    cases ex with
    | none =>
        simp only [Bool.not_true, Bool.not_false, Bool.false_eq_true, if_false,
          if_true, Res.ok.injEq] at h
        obtain ⟨hcv, hstf⟩ := h
        subst hcv
        subst hstf
        refine ⟨rfl, rfl, ?_⟩
        simp
    | some ec =>
        simp only [Bool.not_true, Bool.not_false, Bool.false_eq_true, if_false,
          if_true, Res.ok.injEq] at h
        obtain ⟨hcv, hstf⟩ := h
        subst hcv
        subst hstf
        refine ⟨rfl, rfl, ?_⟩
        have hins := updateFirst_mem (fun cc => cc.class_id == ec.class_id)
          (fun _ => { ec with name := nm, room_id := r, start_time := s, end_time := e, capacity := cap, price := some pr })
          st.classes ec (hex ec rfl)
        simpa using hins

/-- On success `create_or_update_class` persists a class whose start is
the caller's start truncated to the hour and whose end is one hour
later. -/
theorem create_or_update_class_ok_shape (st : State) (trainer_id room_id : Nat)
    (name : String) (capacity : Int) (start_time end_time : Nat) (price : ℚ)
    (class_id : Option Nat) (c : ClassSchedule) (stf : State)
    (h : create_or_update_class st trainer_id room_id name capacity start_time
        end_time price class_id = .ok c stf) :
    c.start_time = (start_time / 60) * 60 ∧
    c.end_time = (start_time / 60) * 60 + 60 ∧ c ∈ stf.classes := by
  unfold create_or_update_class at h
  by_cases hp : price ≤ 0
  · rw [if_pos hp] at h
    simp at h
  · rw [if_neg hp] at h
    cases htr : st.getTrainer trainer_id with
    | none => rw [htr] at h; simp at h
    | some tr =>
      rw [htr] at h
      cases hr : st.rooms.contains room_id <;> rw [hr] at h
      · simp at h
      · simp only [Bool.not_true, Bool.false_eq_true, if_false] at h
        cases class_id with
        | none =>
            exact create_or_update_class_checked_ok st trainer_id room_id name
              capacity _ _ price none c stf (by intro ec hec; cases hec) h
        | some c_id =>
            dsimp only at h
            cases hc : st.getClass c_id with
            | none => rw [hc] at h; simp at h
            | some ec =>
              rw [hc] at h
              dsimp only at h
              by_cases hown : ec.trainer_id = trainer_id
              · rw [if_neg (not_not_intro hown)] at h
                refine create_or_update_class_checked_ok st trainer_id room_id name
                  capacity _ _ price (some ec) c stf ?_ h
                intro ec' hec'
                injection hec' with hh
                subst hh
                have hid : ec.class_id = c_id := by
                  simpa using List.find?_some hc
                rw [hid]
                exact hc
              · rw [if_pos hown] at h
                simp at h

/-- C8: every successful `create_or_update_class` — including the
delegation from `admin_reschedule_class` — stores a class whose
`start_time` is the caller-supplied start truncated to the top of its
hour and whose `end_time` is exactly that start plus one hour,
regardless of the caller-supplied end. -/
theorem class_times_normalized :
    (∀ (st : State) (trainer_id room_id : Nat) (name : String) (capacity : Int)
        (start_time end_time : Nat) (price : ℚ) (class_id : Option Nat)
        (c : ClassSchedule) (stf : State),
      create_or_update_class st trainer_id room_id name capacity start_time
          end_time price class_id = .ok c stf →
      c.start_time = (start_time / 60) * 60 ∧
      c.end_time = (start_time / 60) * 60 + 60 ∧ c ∈ stf.classes) ∧
    (∀ (st : State) (class_id new_room_id new_start new_end : Nat)
        (c : ClassSchedule) (stf : State),
      admin_reschedule_class st class_id new_room_id new_start new_end =
          .ok c stf →
      c.start_time = (new_start / 60) * 60 ∧
      c.end_time = (new_start / 60) * 60 + 60 ∧ c ∈ stf.classes) := by
  refine ⟨?_, ?_⟩
  · intro st t r nm cap s e pr cid c stf h
    exact create_or_update_class_ok_shape st t r nm cap s e pr cid c stf h
  · intro st cid nr ns ne c stf h
    unfold admin_reschedule_class at h
    cases hc : st.getClass cid with
    | none => rw [hc] at h; simp at h
    | some cls =>
      rw [hc] at h
      cases hr : st.rooms.contains nr <;> rw [hr] at h
      · simp at h
      · simp only [Bool.not_true, Bool.false_eq_true, if_false] at h
        exact create_or_update_class_ok_shape st cls.trainer_id nr cls.name
          cls.capacity ns ne (pyFloatOr0 cls.price) (some cls.class_id) c stf h

/-- C8 (witness): the class created at 14:30 in the C1 trace is stored
as 14:00-15:00. -/
theorem class_times_normalized_witness :
    c1_step4.valD.start_time = (3750 / 60) * 60 ∧
    c1_step4.valD.end_time = (3750 / 60) * 60 + 60 ∧
    c1_step4.valD ∈ c1_step4.state.classes :=
  class_times_normalized.1 c1_step3.state 2 2 "Spin" 10 3750 3810 20 none
    c1_step4.valD c1_step4.state rfl

end Gym
